import Mathlib

/-!
# rancher-flat-ipam: address resolution and route synthesis

A shallow embedding of `config.go` (`Net.getSubnetSize`, `Net.getMetadataRoute`,
`LoadCNIConfig`) and `main.go` (`cmdAdd`, `cmdDel`).

Everything the two files call but do not define (the JSON decoder, `types.LoadArgs`,
the metadata IP finder, `net.ParseCIDR`, `net.ParseIP`, `net.IPNet.String`, netlink,
the environment, `Result.Print`) is a field of `Env`, so every theorem quantified over
`Env` holds for any behaviour of those packages and of the host.  The calls to the
metadata finder, to `net.ParseCIDR`, to netlink and to `Print` are recorded, in program
order, in the `calls` log of a `Run`, so that what a run did can be stated as well as
how it ended.

A Go function that returns `(value, error)` becomes a function into `Except` or `Run`;
`if err != nil { return err }` is the sequencing of those.  A run-time panic is a
separate kind of failure.  Logging (`logrus`, the optional log file) never changes
control flow or the result and is left out.
-/

namespace FlatIpam

/-! ## Data model -/

/-- Go `net.IP`: a byte slice (`nil` is the empty list). -/
abbrev IP := List Nat

/-- Go `net.IPMask`: a byte slice. -/
abbrev IPMask := List Nat

/-- Go `net.IPNet`. -/
structure IPNet where
  IP : IP
  Mask : IPMask
deriving DecidableEq, Repr

/-- CNI `types.Route`. -/
structure Route where
  Dst : IPNet
  GW : IP
deriving DecidableEq, Repr

/-- CNI `types.IPConfig`; `Gateway` is never set by this plugin and stays nil. -/
structure IPConfig where
  IP : IPNet
  Gateway : FlatIpam.IP
  Routes : List Route
deriving DecidableEq, Repr

/-- CNI `types.Result`; `cmdAdd` only ever fills `IP4` (`IP6` and `DNS` stay zero). -/
structure Result where
  IP4 : IPConfig
deriving DecidableEq, Repr

/-- The `IPAMConfig` struct of `config.go` (`types.CommonArgs` carries nothing the
plugin reads). -/
structure IPAMConfig where
  Type_ : String
  LogToFile : String
  IsDebugLevel : String
  SubnetPrefixSize : String
  Routes : List Route
  RancherContainerUUID : String
  IPAddress : String
deriving DecidableEq, Repr

/-- The `Net` struct of `config.go`; `IPAM` is a pointer, `none` is nil. -/
structure Net where
  Name : String
  IPAM : Option IPAMConfig
  BrSubnet : String
  BrName : String
deriving DecidableEq, Repr

/-- CNI `skel.CmdArgs`; `StdinData` is the raw byte payload. -/
structure CmdArgs where
  ContainerID : String
  Netns : String
  IfName : String
  Args : String
  Path : String
  StdinData : List Nat
deriving DecidableEq, Repr

/-- A netlink link handle, as returned by `netlink.LinkByName`. -/
structure Link where
  Index : Nat
  Name : String
deriving DecidableEq, Repr

/-- A netlink address entry; only its `IPNet` is read. -/
structure Addr where
  IPNet : IPNet
  Label : String
deriving DecidableEq, Repr

/-! ## Outcomes -/

/-- How a Go function can fail: by returning a non-nil `error` (its message), or by a
run-time panic. -/
inductive Failure where
  | error (msg : String)
  | panic (msg : String)
deriving DecidableEq, Repr

/-- A call that leaves the plugin's own code. -/
inductive Call where
  | NewIPFinderFromMetadata (address : String)
  | GetIP (containerID uuid : String)
  | ParseCIDR (s : String)
  | LinkByName (name : String)
  | AddrList (link : Link)
  | Print (r : Result)
deriving DecidableEq, Repr

/-- An execution: the calls made so far, in order, and how it ended. -/
structure Run (α : Type) where
  calls : List Call
  out : Except Failure α

namespace Run

/-- Finish with a value, having made no call. -/
def ret {α : Type} (a : α) : Run α := ⟨[], .ok a⟩

/-- Stop with a failure, having made no call. -/
def fail {α : Type} (f : Failure) : Run α := ⟨[], .error f⟩

/-- Record one call and hand back its answer. -/
def call {α : Type} (c : Call) (answer : Except Failure α) : Run α := ⟨[c], answer⟩

/-- Lift a pure computation that may fail. -/
def lift {α : Type} (x : Except Failure α) : Run α := ⟨[], x⟩

/-- Sequencing: the second part runs only if the first ended normally. -/
def andThen {α β : Type} (x : Run α) (f : α → Run β) : Run β :=
  match x.out with
  | .ok a => ⟨x.calls ++ (f a).calls, (f a).out⟩
  | .error e => ⟨x.calls, .error e⟩

instance : Monad Run where
  pure := ret
  bind := andThen

end Run

/-! ## The outside world -/

/-- Everything `config.go` and `main.go` call but do not define. -/
structure Env where
  /-- The `json.Unmarshal(bytes, n)` call on a fresh `Net`: the decoded struct or the
  decoder's error message. -/
  Unmarshal : List Nat → Except String Net
  /-- The `types.LoadArgs(args, n.IPAM)` call: the updated struct or the error message. -/
  LoadArgs : String → IPAMConfig → Except String IPAMConfig
  /-- The `os.Getenv` call. -/
  Getenv : String → String
  /-- The constant `metadata.DefaultMetadataAddress`. -/
  DefaultMetadataAddress : String
  /-- The `metadata.NewIPFinderFromMetadata` call: `none` when the finder is built,
  else the error message. -/
  NewIPFinderFromMetadata : String → Option String
  /-- The `GetIP` method of the finder that was built. -/
  GetIP : String → String → String
  /-- The `net.ParseCIDR` call. -/
  ParseCIDR : String → Except String (IP × IPNet)
  /-- The `net.ParseIP` call (nil when the text is no address). -/
  ParseIP : String → IP
  /-- The `String` method of `net.IPNet`. -/
  IPNetString : IPNet → String
  /-- The `netlink.LinkByName` call. -/
  LinkByName : String → Except String Link
  /-- The `netlink.AddrList(l, netlink.FAMILY_V4)` call. -/
  AddrList : Link → Except String (List Addr)
  /-- The `Print` method of the result: `none` when it was written out, else the
  error message. -/
  Print : Result → Option String

/-- Turn a library error message into a returned Go error. -/
def asError {α : Type} : Except String α → Except Failure α
  | .ok a => .ok a
  | .error e => .error (.error e)

/-! ## Go built-ins used by the source -/

/-- Cut a string at the first occurrence of `sep`: the text before it and the text
after it, or `none` when `sep` does not occur. -/
def cutFirst (sep : Char) : List Char → Option (List Char × List Char)
  | [] => none
  | c :: cs =>
    if c = sep then some ([], cs)
    else match cutFirst sep cs with
      | none => none
      | some (pre, post) => some (c :: pre, post)

/-- Go `strings.SplitN(s, sep, n)` for a one-character separator and `n ≥ 0`: at most
`n` pieces, the last one holding the unsplit remainder. -/
def splitNChars (sep : Char) : Nat → List Char → List (List Char)
  | 0, _ => []
  | 1, s => [s]
  | n + 2, s =>
    match cutFirst sep s with
    | none => [s]
    | some (pre, post) => pre :: splitNChars sep (n + 1) post

/-- Go `strings.SplitN` on strings.  The separator is a single ASCII character, so
splitting characters and splitting bytes agree. -/
def SplitN (s : String) (sep : Char) (n : Nat) : List String :=
  (splitNChars sep n s.data).map String.mk

/-- Go slice indexing `xs[i]`: panics when `i` is out of range. -/
def index {α : Type} (xs : List α) (i : Nat) : Except Failure α :=
  match xs.get? i with
  | some x => .ok x
  | none => .error (.panic "runtime error: index out of range")

/-- Dereferencing the `IPAM` pointer of a `Net`: panics on nil. -/
def derefIPAM (n : Net) : Except Failure IPAMConfig :=
  match n.IPAM with
  | some c => .ok c
  | none => .error (.panic "runtime error: invalid memory address or nil pointer dereference")

/-! ## config.go -/

/-- Embedding of `func (n *Net) getSubnetSize() (prefixSize string)`. -/
def getSubnetSize (n : Net) : Except Failure String := do
  let ipam ← derefIPAM n
  if ipam.SubnetPrefixSize ≠ "" then
    pure ipam.SubnetPrefixSize
  else do
    let second ← index (SplitN n.BrSubnet '/' 2) 1
    pure ("/" ++ second)

/-- Embedding of `func LoadCNIConfig(bytes []byte, args string) (*Net, error)`. -/
def LoadCNIConfig (env : Env) (bytes : List Nat) (args : String) : Except Failure Net :=
  match env.Unmarshal bytes with
  | .error err => .error (.error ("failed to load netconf: " ++ err))
  | .ok n =>
    match n.IPAM with
    | none => .error (.error "IPAM config missing 'ipam' key")
    | some ipam =>
      match env.LoadArgs args ipam with
      | .error err => .error (.error ("failed to parse args " ++ args ++ ": " ++ err))
      | .ok merged => .ok { n with IPAM := some merged }

/-- The `net.ParseCIDR` call, logged. -/
def Env.parseCIDR (env : Env) (s : String) : Run (IP × IPNet) :=
  Run.call (.ParseCIDR s) (asError (env.ParseCIDR s))

/-- The `netlink.LinkByName` call, logged. -/
def Env.linkByName (env : Env) (name : String) : Run Link :=
  Run.call (.LinkByName name) (asError (env.LinkByName name))

/-- The `netlink.AddrList` call for the IPv4 family, logged. -/
def Env.addrList (env : Env) (l : Link) : Run (List Addr) :=
  Run.call (.AddrList l) (asError (env.AddrList l))

/-- The `metadata.NewIPFinderFromMetadata` call, logged. -/
def Env.newIPFinder (env : Env) (address : String) : Run Unit :=
  Run.call (.NewIPFinderFromMetadata address)
    (match env.NewIPFinderFromMetadata address with
     | none => .ok ()
     | some err => .error (.error err))

/-- The `GetIP` call on the finder, logged. -/
def Env.getIP (env : Env) (containerID uuid : String) : Run String :=
  Run.call (.GetIP containerID uuid) (.ok (env.GetIP containerID uuid))

/-- The `r.Print()` call, logged; its error, if any, is what `cmdAdd` returns. -/
def Env.print (env : Env) (r : Result) : Run Result :=
  Run.call (.Print r)
    (match env.Print r with
     | none => .ok r
     | some err => .error (.error err))

/-- Embedding of `func (n *Net) getMetadataRoute() (route types.Route, err error)`. -/
def getMetadataRoute (env : Env) (n : Net) : Run Route := do
  let fromEnv := env.Getenv "RANCHER_METADATA_ADDRESS"
  let metadataAddress := if fromEnv = "" then env.DefaultMetadataAddress else fromEnv
  let (_, metadataNet) ← env.parseCIDR (metadataAddress ++ "/32")
  let l ← env.linkByName n.BrName
  let addrs ← env.addrList l
  if addrs.length = 0 then
    Run.fail (.error ("error getting no IP from flat bridge " ++ n.BrName))
  else if addrs.length > 1 then
    Run.fail (.error ("error getting one more IP from flat bridge " ++ n.BrName))
  else do
    let first ← Run.lift (index addrs 0)
    let text ← Run.lift (index (SplitN (env.IPNetString first.IPNet) '/' 2) 0)
    let bridgeIP := env.ParseIP text
    pure { Dst := metadataNet, GW := bridgeIP }

/-! ## main.go -/

/-- Embedding of `func cmdAdd(args *skel.CmdArgs) error`.  The value of a normal run is
the result that was printed for the runtime. -/
def cmdAdd (env : Env) (args : CmdArgs) : Run Result := do
  let cniConf ← Run.lift (LoadCNIConfig env args.StdinData args.Args)
  let ipamConf ← Run.lift (derefIPAM cniConf)
  let metadataAddress := env.Getenv "RANCHER_METADATA_ADDRESS"
  env.newIPFinder metadataAddress
  let ipStringWithPrefix := ipamConf.IPAddress
  let ipStringWithPrefix ←
    (if ipStringWithPrefix = "" then do
      let ipString ← env.getIP args.ContainerID ipamConf.RancherContainerUUID
      if ipString = "" then
        Run.fail (.error "No IP address found")
      else do
        let size ← Run.lift (getSubnetSize cniConf)
        pure (ipString ++ size)
    else
      pure ipStringWithPrefix)
  let (ip, ipnet) ← env.parseCIDR ipStringWithPrefix
  let r : Result :=
    { IP4 := { IP := { IP := ip, Mask := ipnet.Mask }, Gateway := [], Routes := [] } }
  let metadataRoute ← getMetadataRoute env cniConf
  let r : Result :=
    { r with IP4 := { r.IP4 with Routes := ipamConf.Routes ++ [metadataRoute] } }
  env.print r

/-- Embedding of `func cmdDel(args *skel.CmdArgs) error`. -/
def cmdDel (_args : CmdArgs) : Run Unit := pure ()

/-! ## A sample host

A small IPv4-only stand-in for the packages behind `Env`, used for the concrete
instances below.  The general theorems do not depend on it. -/

/-- Value of a run of decimal digits, continuing from `acc`. -/
def decimalFrom (acc : Nat) : List Char → Option Nat
  | [] => some acc
  | c :: cs =>
    if '0' ≤ c ∧ c ≤ '9' then decimalFrom (acc * 10 + (c.toNat - 48)) cs else none

/-- Value of a non-empty all-digit string. -/
def decimal (s : List Char) : Option Nat :=
  if s = [] then none else decimalFrom 0 s

/-- Four dot-separated decimal octets. -/
def parseIPv4 (s : List Char) : Option (List Nat) :=
  match (splitNChars '.' 5 s).map decimal with
  | [some a, some b, some c, some d] =>
    if a ≤ 255 ∧ b ≤ 255 ∧ c ≤ 255 ∧ d ≤ 255 then some [a, b, c, d] else none
  | _ => none

/-- Go `net.IPv4(a, b, c, d)`: the 16-byte form of an IPv4 address. -/
def v4InV6 (octets : List Nat) : IP :=
  [0, 0, 0, 0, 0, 0, 0, 0, 0, 0, 255, 255] ++ octets

/-- Go `net.CIDRMask(ones, 32)`. -/
def cidrMask (ones : Nat) : IPMask :=
  (List.range 4).map fun i =>
    if 8 * (i + 1) ≤ ones then 255
    else if ones ≤ 8 * i then 0
    else 256 - 2 ^ (8 * (i + 1) - ones)

/-- Sample `net.ParseCIDR`, IPv4 only. -/
def sampleParseCIDR (s : String) : Except String (IP × IPNet) :=
  match cutFirst '/' s.data with
  | none => .error ("invalid CIDR address: " ++ s)
  | some (addr, bits) =>
    match parseIPv4 addr, decimal bits with
    | some octets, some ones =>
      if ones ≤ 32 then
        .ok (v4InV6 octets,
          { IP := List.zipWith Nat.land octets (cidrMask ones), Mask := cidrMask ones })
      else .error ("invalid CIDR address: " ++ s)
    | _, _ => .error ("invalid CIDR address: " ++ s)

/-- Sample `net.ParseIP`, IPv4 only. -/
def sampleParseIP (s : String) : IP :=
  match parseIPv4 s.data with
  | some octets => v4InV6 octets
  | none => []

/-- Sample `String` method of `net.IPNet` for a 4-byte network with a CIDR mask. -/
def sampleIPNetString (n : IPNet) : String :=
  ".".intercalate (n.IP.map Nat.repr) ++ "/" ++
    Nat.repr (((List.range 33).find? fun ones => cidrMask ones = n.Mask).getD 0)

/-- Sample `types.LoadArgs`: the empty string changes nothing; a single `key=value`
pair sets `IPAddress` or `RancherContainerUUID`; anything else is refused. -/
def sampleLoadArgs (args : String) (c : IPAMConfig) : Except String IPAMConfig :=
  if args = "" then .ok c
  else match cutFirst '=' args.data with
    | none => .error ("ARGS: invalid pair " ++ args)
    | some (key, value) =>
      if String.mk key = "IPAddress" then .ok { c with IPAddress := String.mk value }
      else if String.mk key = "RancherContainerUUID" then
        .ok { c with RancherContainerUUID := String.mk value }
      else .error ("ARGS: unknown args " ++ args)

/-- A host on which the payload decodes as `decoded`, the metadata service answers
`metadataIP` for every container, the bridge `br0` exists and carries the addresses
`bridgeAddrs`, no metadata address is set in the environment, and printing works. -/
def sampleHost (decoded : Except String Net) (metadataIP : String)
    (bridgeAddrs : List Addr) : Env where
  Unmarshal := fun _ => decoded
  LoadArgs := sampleLoadArgs
  Getenv := fun _ => ""
  DefaultMetadataAddress := "169.254.169.250"
  NewIPFinderFromMetadata := fun _ => none
  GetIP := fun _ _ => metadataIP
  ParseCIDR := sampleParseCIDR
  ParseIP := sampleParseIP
  IPNetString := sampleIPNetString
  LinkByName := fun name =>
    if name = "br0" then .ok { Index := 3, Name := "br0" } else .error "Link not found"
  AddrList := fun _ => .ok bridgeAddrs
  Print := fun _ => none

/-- An IPAM section with no prefix override, no explicit address and no static route. -/
def sampleIPAM : IPAMConfig where
  Type_ := "rancher-flat-ipam"
  LogToFile := ""
  IsDebugLevel := ""
  SubnetPrefixSize := ""
  Routes := []
  RancherContainerUUID := ""
  IPAddress := ""

/-- A network configuration: bridge `br0`, subnet 10.42.0.0/16, the IPAM section above. -/
def sampleNet : Net where
  Name := "flat"
  IPAM := some sampleIPAM
  BrSubnet := "10.42.0.0/16"
  BrName := "br0"

/-- The bridge address 10.42.0.1/16. -/
def sampleBridgeAddr : Addr where
  IPNet := { IP := [10, 42, 0, 1], Mask := [255, 255, 0, 0] }
  Label := "br0"

/-- A request for container `c1` with the given argument string. -/
def sampleArgs (args : String) : CmdArgs where
  ContainerID := "c1"
  Netns := "/proc/1/ns/net"
  IfName := "eth0"
  Args := args
  Path := "/opt/cni/bin"
  StdinData := []

/-- A static route to 192.168.0.0/24 through 10.42.0.254. -/
def sampleRoute1 : Route where
  Dst := { IP := [192, 168, 0, 0], Mask := [255, 255, 255, 0] }
  GW := v4InV6 [10, 42, 0, 254]

/-- A static default route through 10.42.0.253. -/
def sampleRoute2 : Route where
  Dst := { IP := [0, 0, 0, 0], Mask := [0, 0, 0, 0] }
  GW := v4InV6 [10, 42, 0, 253]

/-- The route to the metadata service 169.254.169.250/32 through the bridge address
10.42.0.1. -/
def sampleMetadataRoute : Route where
  Dst := { IP := [169, 254, 169, 250], Mask := [255, 255, 255, 255] }
  GW := v4InV6 [10, 42, 0, 1]

/-- The sample IPAM section with the two static routes. -/
def sampleRoutedIPAM : IPAMConfig :=
  { sampleIPAM with Routes := [sampleRoute1, sampleRoute2] }

/-- The sample configuration with the two static routes. -/
def sampleNetRouted : Net :=
  { sampleNet with IPAM := some sampleRoutedIPAM }

/-- The allocation 10.0.0.5/16 with the two static routes and the metadata route. -/
def sampleResult : Result where
  IP4 :=
    { IP := { IP := v4InV6 [10, 0, 0, 5], Mask := [255, 255, 0, 0] }
      Gateway := []
      Routes := [sampleRoute1, sampleRoute2, sampleMetadataRoute] }

/-- The sample IPAM section after the argument string `IPAddress=10.0.0.7/24` has been
merged into it. -/
def sampleExplicitIPAM : IPAMConfig :=
  { sampleIPAM with IPAddress := "10.0.0.7/24" }

/-- The sample configuration carrying the explicit address 10.0.0.7/24. -/
def sampleExplicitNet : Net :=
  { sampleNet with IPAM := some sampleExplicitIPAM }

/-- The sample IPAM section after the argument string `IPAddress=10.0.0.7` has been
merged into it: an explicit address without a prefix length. -/
def sampleBareIPAM : IPAMConfig :=
  { sampleIPAM with IPAddress := "10.0.0.7" }

/-- The sample configuration carrying the explicit address 10.0.0.7. -/
def sampleBareNet : Net :=
  { sampleNet with IPAM := some sampleBareIPAM }

/-- The sample configuration with a bridge subnet that lacks its prefix length. -/
def sampleNetNoSlash : Net :=
  { sampleNet with BrSubnet := "10.42.0.0" }

/-- The sample configuration on the bridge subnet 10.0.0.0/24. -/
def sampleNet24 : Net :=
  { sampleNet with BrSubnet := "10.0.0.0/24" }

/-- The sample configuration with the prefix override `/20`. -/
def sampleNetOverride : Net :=
  { sampleNet with IPAM := some { sampleIPAM with SubnetPrefixSize := "/20" } }

/-! ## Observations on a run -/

/-- The text `cmdAdd` hands to `net.ParseCIDR` for the container address: the argument
of the first `ParseCIDR` call of the run (a later one belongs to the metadata route). -/
def resolvedCIDR (calls : List Call) : Option String :=
  calls.findSome? fun
    | .ParseCIDR s => some s
    | _ => none

/-- Whether a call is the metadata lookup. -/
def Call.isGetIP : Call → Bool
  | .GetIP _ _ => true
  | _ => false

/-- Whether a call prints a result. -/
def Call.isPrint : Call → Bool
  | .Print _ => true
  | _ => false

/-- The text that lines 47-55 of `main.go` hand on to `net.ParseCIDR` when they do not
stop the run: the explicit address when there is one, else the non-empty answer of the
metadata lookup followed by the derived prefix. -/
def ResolvesTo (env : Env) (args : CmdArgs) (n : Net) (ipam : IPAMConfig)
    (s : String) : Prop :=
  (ipam.IPAddress ≠ "" ∧ s = ipam.IPAddress) ∨
  (ipam.IPAddress = "" ∧ env.GetIP args.ContainerID ipam.RancherContainerUUID ≠ "" ∧
    ∃ p, getSubnetSize n = .ok p ∧
      s = env.GetIP args.ContainerID ipam.RancherContainerUUID ++ p)

/-- The calls a run makes before it parses the container address: the finder is
built, and the metadata lookup is made only when there is no explicit address. -/
def callsBeforeParse (env : Env) (args : CmdArgs) (ipam : IPAMConfig) : List Call :=
  .NewIPFinderFromMetadata (env.Getenv "RANCHER_METADATA_ADDRESS") ::
    (if ipam.IPAddress = "" then [.GetIP args.ContainerID ipam.RancherContainerUUID]
     else [])

/-- The address `getMetadataRoute` takes for the metadata service: the environment
value, or the default when that is empty (`config.go` lines 45-48). -/
def metadataAddressOf (env : Env) : String :=
  if env.Getenv "RANCHER_METADATA_ADDRESS" = "" then env.DefaultMetadataAddress
  else env.Getenv "RANCHER_METADATA_ADDRESS"

/-- The text of the bridge-address-count error for a bridge with these addresses
(`config.go` lines 62-67). -/
def bridgeCountError (brName : String) (addrs : List Addr) : String :=
  (if addrs.length = 0 then "error getting no IP from flat bridge "
   else "error getting one more IP from flat bridge ") ++ brName

deriving instance DecidableEq for Except

instance {α : Type} [DecidableEq α] : DecidableEq (Run α) := fun a b =>
  match a, b with
  | ⟨c₁, o₁⟩, ⟨c₂, o₂⟩ =>
    if h : c₁ = c₂ ∧ o₁ = o₂ then isTrue (by cases h; subst_vars; rfl)
    else isFalse (fun e => h (by cases e; exact ⟨rfl, rfl⟩))

/-! ## Basic facts about runs -/

theorem Run.bind_eq {α β : Type} (x : Run α) (f : α → Run β) :
    x >>= f = Run.andThen x f := rfl

theorem Run.pure_eq {α : Type} (a : α) : (pure a : Run α) = Run.ret a := rfl

/-- A sequence ends normally exactly when both parts do. -/
theorem Run.out_bind_ok {α β : Type} (x : Run α) (f : α → Run β) (b : β) :
    (x >>= f).out = .ok b ↔ ∃ a, x.out = .ok a ∧ (f a).out = .ok b := by
  obtain ⟨calls, out⟩ := x
  cases out with
  | error e => simp [Run.bind_eq, Run.andThen]
  | ok a => simp [Run.bind_eq, Run.andThen]

/-- A property of every call of both parts holds of every call of the sequence. -/
theorem Run.forall_calls_bind {α β : Type} (P : Call → Prop) (x : Run α) (f : α → Run β)
    (hx : ∀ c ∈ x.calls, P c) (hf : ∀ a, x.out = .ok a → ∀ c ∈ (f a).calls, P c) :
    ∀ c ∈ (x >>= f).calls, P c := by
  intro c hc
  simp only [Run.bind_eq, Run.andThen] at hc
  split at hc
  · rename_i a ha
    simp only [List.mem_append] at hc
    rcases hc with h | h
    · exact hx c h
    · exact hf a ha c h
  · exact hx c hc

/-! ## Facts about splitting -/

theorem cutFirst_append (sep : Char) (pre post : List Char) (h : sep ∉ pre) :
    cutFirst sep (pre ++ sep :: post) = some (pre, post) := by
  induction pre with
  | nil => simp [cutFirst]
  | cons c cs ih =>
    have hc : c ≠ sep := fun e => h (by simp [e])
    have hcs : sep ∉ cs := fun e => h (by simp [e])
    simp [cutFirst, hc, ih hcs]

theorem cutFirst_none (sep : Char) (s : List Char) (h : sep ∉ s) :
    cutFirst sep s = none := by
  induction s with
  | nil => rfl
  | cons c cs ih =>
    have hc : c ≠ sep := fun e => h (by simp [e])
    have hcs : sep ∉ cs := fun e => h (by simp [e])
    simp [cutFirst, hc, ih hcs]

/-- Splitting `A/N` in two gives `A` and `N` when `A` holds no slash. -/
theorem SplitN_two (A N : String) (h : '/' ∉ A.data) :
    SplitN (A ++ "/" ++ N) '/' 2 = [A, N] := by
  have hd : (A ++ "/" ++ N).data = A.data ++ '/' :: N.data := by
    simp [String.data_append]
  simp [SplitN, splitNChars, hd, cutFirst_append _ _ _ h]

/-- Splitting a string without a slash gives the string alone. -/
theorem SplitN_no_slash (s : String) (n : Nat) (h : '/' ∉ s.data) :
    SplitN s '/' (n + 1) = [s] := by
  cases n with
  | zero => simp [SplitN, splitNChars]
  | succ k => simp [SplitN, splitNChars, cutFirst_none _ _ h]

/-- Without an override and without a slash in the bridge subnet, `getSubnetSize`
indexes past the end of the split and panics. -/
theorem getSubnetSize_no_slash (n : Net) (ipam : IPAMConfig) (hipam : n.IPAM = some ipam)
    (hover : ipam.SubnetPrefixSize = "") (hslash : '/' ∉ n.BrSubnet.data) :
    getSubnetSize n = .error (.panic "runtime error: index out of range") := by
  simp [getSubnetSize, derefIPAM, hipam, hover, SplitN_no_slash _ 1 hslash, index, bind,
    Except.bind]

/-! ## Claims -/

/-- C5. `getSubnetSize` returns the prefix override unchanged whenever it is non-empty,
whatever the bridge subnet is; with an empty override and a bridge subnet `A/N` (`A`
holding no slash) it returns `/N`.  In particular the bridge subnet `10.42.0.0/16`
gives `/16` without an override and `/20` with the override `/20`. -/
theorem getSubnetSize_override_or_bridge (n : Net) (ipam : IPAMConfig)
    (hipam : n.IPAM = some ipam) :
    (ipam.SubnetPrefixSize ≠ "" → getSubnetSize n = .ok ipam.SubnetPrefixSize) ∧
    (ipam.SubnetPrefixSize = "" → ∀ A N : String, '/' ∉ A.data →
      n.BrSubnet = A ++ "/" ++ N → getSubnetSize n = .ok ("/" ++ N)) ∧
    (n.BrSubnet = "10.42.0.0/16" →
      (ipam.SubnetPrefixSize = "" → getSubnetSize n = .ok "/16") ∧
      (ipam.SubnetPrefixSize = "/20" → getSubnetSize n = .ok "/20")) := by
  refine ⟨?_, ?_, ?_⟩
  · intro h
    simp [getSubnetSize, derefIPAM, hipam, h, bind, Except.bind, pure, Except.pure]
  · intro h A N hA hbr
    simp [getSubnetSize, derefIPAM, hipam, h, hbr, SplitN_two A N hA, index, bind,
      Except.bind, pure, Except.pure]
  · intro hbr
    constructor
    · intro h
      have hs : SplitN "10.42.0.0/16" '/' 2 = ["10.42.0.0", "16"] := by decide
      simp [getSubnetSize, derefIPAM, hipam, h, hbr, hs, index, bind, Except.bind, pure,
        Except.pure]
    · intro h
      simp [getSubnetSize, derefIPAM, hipam, h, bind, Except.bind, pure, Except.pure]

/-- C5, at the sample configurations: the override `/20` is returned as it is, and
the bridge subnet `10.42.0.0/16` without an override gives `/16`. -/
theorem getSubnetSize_override_or_bridge_witness :
    getSubnetSize sampleNetOverride = .ok "/20" ∧
    getSubnetSize sampleNet = .ok ("/" ++ "16") ∧
    getSubnetSize sampleNet = .ok "/16" :=
  ⟨(getSubnetSize_override_or_bridge sampleNetOverride
      { sampleIPAM with SubnetPrefixSize := "/20" } rfl).1 (by decide),
   (getSubnetSize_override_or_bridge sampleNet sampleIPAM rfl).2.1 rfl "10.42.0.0" "16"
      (by decide) (by decide),
   ((getSubnetSize_override_or_bridge sampleNet sampleIPAM rfl).2.2 rfl).1 rfl⟩

/-! ## Facts about `getMetadataRoute` -/

theorem getMetadataRoute_setGetIP (env : Env) (g : String → String → String) (n : Net) :
    getMetadataRoute { env with GetIP := g } n = getMetadataRoute env n := rfl

/-- The route derivation only parses, looks the bridge up and lists its addresses. -/
theorem getMetadataRoute_calls (env : Env) (n : Net) :
    ∀ c ∈ (getMetadataRoute env n).calls, c.isGetIP = false ∧ c.isPrint = false := by
  unfold getMetadataRoute
  intro c hc
  simp only [Run.bind_eq, Run.pure_eq, Run.andThen, Run.lift, Run.ret, Run.fail, Run.call,
    Env.parseCIDR, Env.linkByName, Env.addrList] at hc
  repeat' split at hc
  all_goals simp only [List.append_nil, List.mem_append, List.mem_singleton, List.mem_cons,
    List.not_mem_nil, or_false] at hc
  all_goals
    first
    | (rcases hc with h | h | h <;> subst h <;> exact ⟨rfl, rfl⟩)
    | (rcases hc with h | h <;> subst h <;> exact ⟨rfl, rfl⟩)
    | (subst hc; exact ⟨rfl, rfl⟩)

/-- C1. When the loaded configuration carries a non-empty explicit address, the metadata
lookup `GetIP` is never called: the run of `cmdAdd` (its calls and its result or error)
is the same for any two lookup functions, and no call of the run is a `GetIP` call.
(The finder itself is still constructed; only the lookup is skipped.) -/
theorem explicit_address_skips_lookup (env : Env) (args : CmdArgs) (n : Net)
    (ipam : IPAMConfig) (g₁ g₂ : String → String → String)
    (hload : LoadCNIConfig env args.StdinData args.Args = .ok n)
    (hipam : n.IPAM = some ipam)
    (hexplicit : ipam.IPAddress ≠ "") :
    cmdAdd { env with GetIP := g₁ } args = cmdAdd { env with GetIP := g₂ } args ∧
    ∀ c ∈ (cmdAdd { env with GetIP := g₁ } args).calls, c.isGetIP = false := by
  have hsame : ∀ g : String → String → String,
      cmdAdd { env with GetIP := g } args =
        (do
          env.newIPFinder (env.Getenv "RANCHER_METADATA_ADDRESS")
          let (ip, ipnet) ← env.parseCIDR ipam.IPAddress
          let metadataRoute ← getMetadataRoute env n
          env.print
            { IP4 := { IP := { IP := ip, Mask := ipnet.Mask }, Gateway := [],
                       Routes := ipam.Routes ++ [metadataRoute] } }) := by
    intro g
    have hl : LoadCNIConfig { env with GetIP := g } args.StdinData args.Args = .ok n :=
      hload
    simp [cmdAdd, Run.bind_eq, Run.pure_eq, Run.andThen, Run.lift, Run.ret, Run.fail,
      Run.call, Env.newIPFinder, Env.getIP, derefIPAM, hl, hipam, hexplicit,
      getMetadataRoute_setGetIP, Env.parseCIDR, Env.print]
  refine ⟨by rw [hsame g₁, hsame g₂], ?_⟩
  rw [hsame g₁]
  apply Run.forall_calls_bind
  · intro c hc
    simp only [Env.newIPFinder, Run.call, List.mem_singleton] at hc
    subst hc
    rfl
  intro _ _
  apply Run.forall_calls_bind
  · intro c hc
    simp only [Env.parseCIDR, Run.call, List.mem_singleton] at hc
    subst hc
    rfl
  rintro ⟨ip, ipnet⟩ _
  apply Run.forall_calls_bind
  · intro c hc
    exact (getMetadataRoute_calls env n c hc).1
  intro m _ c hc
  simp only [Env.print, Run.call, List.mem_singleton] at hc
  subst hc
  rfl

/-- C1, on the sample host with the explicit address 10.0.0.7/24: a lookup that would
answer 10.0.0.5 and one that would answer nothing give the same run, which allocates
10.0.0.7/24 and holds no `GetIP` call. -/
theorem explicit_address_skips_lookup_witness :
    (cmdAdd { sampleHost (.ok sampleNet) "" [sampleBridgeAddr] with
                GetIP := fun _ _ => "10.0.0.5" } (sampleArgs "IPAddress=10.0.0.7/24")
      = cmdAdd { sampleHost (.ok sampleNet) "" [sampleBridgeAddr] with
                  GetIP := fun _ _ => "" } (sampleArgs "IPAddress=10.0.0.7/24") ∧
     ∀ c ∈ (cmdAdd { sampleHost (.ok sampleNet) "" [sampleBridgeAddr] with
                GetIP := fun _ _ => "10.0.0.5" } (sampleArgs "IPAddress=10.0.0.7/24")).calls,
       c.isGetIP = false) ∧
    ((cmdAdd { sampleHost (.ok sampleNet) "" [sampleBridgeAddr] with
                GetIP := fun _ _ => "10.0.0.5" } (sampleArgs "IPAddress=10.0.0.7/24")).out.map
        fun r => r.IP4.IP)
      = .ok { IP := v4InV6 [10, 0, 0, 7], Mask := [255, 255, 255, 0] } :=
  ⟨explicit_address_skips_lookup (sampleHost (.ok sampleNet) "" [sampleBridgeAddr])
      (sampleArgs "IPAddress=10.0.0.7/24") sampleExplicitNet sampleExplicitIPAM
      (fun _ _ => "10.0.0.5") (fun _ _ => "") (by decide) rfl (by decide),
   by decide⟩

/-- C4. With an empty explicit address, a finder that was built and an empty answer
from the metadata lookup, `cmdAdd` returns the error `No IP address found` and stops
right after the lookup: nothing is parsed, the bridge is not consulted and nothing is
printed, whatever the bridge subnet, prefix override, static routes and bridge state. -/
theorem empty_lookup_fails (env : Env) (args : CmdArgs) (n : Net) (ipam : IPAMConfig)
    (hload : LoadCNIConfig env args.StdinData args.Args = .ok n)
    (hipam : n.IPAM = some ipam)
    (hexplicit : ipam.IPAddress = "")
    (hfinder : env.NewIPFinderFromMetadata (env.Getenv "RANCHER_METADATA_ADDRESS") = none)
    (hempty : env.GetIP args.ContainerID ipam.RancherContainerUUID = "") :
    (cmdAdd env args).out = .error (.error "No IP address found") ∧
    (cmdAdd env args).calls =
      [.NewIPFinderFromMetadata (env.Getenv "RANCHER_METADATA_ADDRESS"),
       .GetIP args.ContainerID ipam.RancherContainerUUID] := by
  simp [cmdAdd, Run.bind_eq, Run.pure_eq, Run.andThen, Run.lift, Run.ret, Run.fail,
    Run.call, Env.newIPFinder, Env.getIP, derefIPAM, hload, hipam, hexplicit, hfinder,
    hempty]

/-- C4, on the sample host with a metadata service that knows no address. -/
theorem empty_lookup_fails_witness :
    (cmdAdd (sampleHost (.ok sampleNetRouted) "" []) (sampleArgs "")).out
      = .error (.error "No IP address found") ∧
    (cmdAdd (sampleHost (.ok sampleNetRouted) "" []) (sampleArgs "")).calls
      = [.NewIPFinderFromMetadata
          ((sampleHost (.ok sampleNetRouted) "" []).Getenv "RANCHER_METADATA_ADDRESS"),
         .GetIP (sampleArgs "").ContainerID sampleRoutedIPAM.RancherContainerUUID] :=
  empty_lookup_fails (sampleHost (.ok sampleNetRouted) "" []) (sampleArgs "")
    sampleNetRouted sampleRoutedIPAM (by decide) rfl rfl rfl rfl

/-- C3. With an empty explicit address, a finder that was built, a non-empty answer
`ip` from the metadata lookup and a derived prefix `p`, the text `cmdAdd` parses is
exactly `ip` followed by `p`; for the answer `10.0.0.5` and the prefix `/24` it is
`10.0.0.5/24`. -/
theorem lookup_address_prefixed (env : Env) (args : CmdArgs) (n : Net)
    (ipam : IPAMConfig) (ip p : String)
    (hload : LoadCNIConfig env args.StdinData args.Args = .ok n)
    (hipam : n.IPAM = some ipam)
    (hexplicit : ipam.IPAddress = "")
    (hfinder : env.NewIPFinderFromMetadata (env.Getenv "RANCHER_METADATA_ADDRESS") = none)
    (hip : env.GetIP args.ContainerID ipam.RancherContainerUUID = ip)
    (hne : ip ≠ "")
    (hsize : getSubnetSize n = .ok p) :
    resolvedCIDR (cmdAdd env args).calls = some (ip ++ p) ∧
    (ip = "10.0.0.5" → p = "/24" →
      resolvedCIDR (cmdAdd env args).calls = some "10.0.0.5/24") := by
  have key : resolvedCIDR (cmdAdd env args).calls = some (ip ++ p) := by
    simp only [cmdAdd, Run.bind_eq, Run.pure_eq, Run.andThen, Run.lift, Run.ret, Run.fail,
      Run.call, Env.newIPFinder, Env.getIP, derefIPAM, hload, hipam, hexplicit, hfinder,
      hip, hne, hsize, Env.parseCIDR, if_true, if_false, List.nil_append, List.append_nil]
    split <;> simp [resolvedCIDR, List.findSome?]
  refine ⟨key, ?_⟩
  intro h1 h2
  rw [key, h1, h2]
  rfl

/-- C3, on the sample host with bridge subnet 10.0.0.0/24 and the lookup answer
10.0.0.5: the text parsed is `10.0.0.5/24`, and the allocation is 10.0.0.5 with a
24-bit mask. -/
theorem lookup_address_prefixed_witness :
    (resolvedCIDR (cmdAdd (sampleHost (.ok sampleNet24) "10.0.0.5" [sampleBridgeAddr])
        (sampleArgs "")).calls = some ("10.0.0.5" ++ "/24") ∧
     ("10.0.0.5" = "10.0.0.5" → "/24" = "/24" →
       resolvedCIDR (cmdAdd (sampleHost (.ok sampleNet24) "10.0.0.5" [sampleBridgeAddr])
         (sampleArgs "")).calls = some "10.0.0.5/24")) ∧
    ((cmdAdd (sampleHost (.ok sampleNet24) "10.0.0.5" [sampleBridgeAddr])
        (sampleArgs "")).out.map fun r => r.IP4.IP)
      = .ok { IP := v4InV6 [10, 0, 0, 5], Mask := [255, 255, 255, 0] } :=
  ⟨lookup_address_prefixed (sampleHost (.ok sampleNet24) "10.0.0.5" [sampleBridgeAddr])
      (sampleArgs "") sampleNet24 sampleIPAM "10.0.0.5" "/24" (by decide) rfl rfl rfl rfl
      (by decide) (by decide),
   by decide⟩

/-- C2, refuted as stated.  The request carries the explicit address `10.0.0.7` and the
bridge subnet `10.42.0.0/16` derives the prefix `/16`, yet `cmdAdd` parses `10.0.0.7`
alone, not `10.0.0.7/16`, and the allocation fails on it. -/
theorem explicit_address_prefix_counterexample :
    LoadCNIConfig (sampleHost (.ok sampleNet) "" [sampleBridgeAddr])
        (sampleArgs "IPAddress=10.0.0.7").StdinData (sampleArgs "IPAddress=10.0.0.7").Args
      = .ok sampleBareNet ∧
    sampleBareNet.IPAM = some sampleBareIPAM ∧
    sampleBareIPAM.IPAddress = "10.0.0.7" ∧
    getSubnetSize sampleBareNet = .ok "/16" ∧
    resolvedCIDR (cmdAdd (sampleHost (.ok sampleNet) "" [sampleBridgeAddr])
        (sampleArgs "IPAddress=10.0.0.7")).calls = some "10.0.0.7" ∧
    resolvedCIDR (cmdAdd (sampleHost (.ok sampleNet) "" [sampleBridgeAddr])
        (sampleArgs "IPAddress=10.0.0.7")).calls ≠ some ("10.0.0.7" ++ "/16") ∧
    (cmdAdd (sampleHost (.ok sampleNet) "" [sampleBridgeAddr])
        (sampleArgs "IPAddress=10.0.0.7")).out
      = .error (.error "invalid CIDR address: 10.0.0.7") := by
  decide

/-- With a non-empty explicit address, `cmdAdd` is the straight line: build the finder,
parse the explicit address, derive the metadata route, print. -/
theorem cmdAdd_explicit (env : Env) (args : CmdArgs) (n : Net) (ipam : IPAMConfig)
    (hload : LoadCNIConfig env args.StdinData args.Args = .ok n)
    (hipam : n.IPAM = some ipam)
    (hexplicit : ipam.IPAddress ≠ "") :
    cmdAdd env args =
      (do
        env.newIPFinder (env.Getenv "RANCHER_METADATA_ADDRESS")
        let (ip, ipnet) ← env.parseCIDR ipam.IPAddress
        let metadataRoute ← getMetadataRoute env n
        env.print
          { IP4 := { IP := { IP := ip, Mask := ipnet.Mask }, Gateway := [],
                     Routes := ipam.Routes ++ [metadataRoute] } }) := by
  simp [cmdAdd, Run.bind_eq, Run.pure_eq, Run.andThen, Run.lift, Run.ret, Run.fail,
    Run.call, Env.newIPFinder, Env.getIP, derefIPAM, hload, hipam, hexplicit,
    Env.parseCIDR, Env.print]

/-- C2, amended.  With a non-empty explicit address and a finder that was built:
the text `cmdAdd` parses is the explicit address itself, unchanged; when that text does
not parse the run ends right there with the parse error; when it parses to `(ip, ipnet)`
every result has the address `ip` with the mask of `ipnet`, and the run ends normally
with exactly that address as soon as the metadata route is derived and the result is
printed; and the derived prefix is not consulted: the whole run is the same for every
bridge subnet and every prefix override in the loaded configuration. -/
theorem explicit_address_parsed_verbatim (env : Env) (args : CmdArgs) (n : Net)
    (ipam : IPAMConfig)
    (hload : LoadCNIConfig env args.StdinData args.Args = .ok n)
    (hipam : n.IPAM = some ipam)
    (hexplicit : ipam.IPAddress ≠ "")
    (hfinder : env.NewIPFinderFromMetadata (env.Getenv "RANCHER_METADATA_ADDRESS") = none) :
    resolvedCIDR (cmdAdd env args).calls = some ipam.IPAddress ∧
    (∀ e, env.ParseCIDR ipam.IPAddress = .error e →
      (cmdAdd env args).out = .error (.error e) ∧
      (cmdAdd env args).calls =
        [.NewIPFinderFromMetadata (env.Getenv "RANCHER_METADATA_ADDRESS"),
         .ParseCIDR ipam.IPAddress]) ∧
    (∀ ip ipnet, env.ParseCIDR ipam.IPAddress = .ok (ip, ipnet) →
      (∀ r, (cmdAdd env args).out = .ok r → r.IP4.IP = { IP := ip, Mask := ipnet.Mask }) ∧
      (∀ m, (getMetadataRoute env n).out = .ok m →
        env.Print { IP4 := { IP := { IP := ip, Mask := ipnet.Mask }, Gateway := [],
                             Routes := ipam.Routes ++ [m] } } = none →
        (cmdAdd env args).out =
          .ok { IP4 := { IP := { IP := ip, Mask := ipnet.Mask }, Gateway := [],
                         Routes := ipam.Routes ++ [m] } })) ∧
    (∀ (u : List Nat → Except String Net)
       (la : String → IPAMConfig → Except String IPAMConfig) (b sz : String),
      LoadCNIConfig { env with Unmarshal := u, LoadArgs := la } args.StdinData args.Args =
        .ok { n with BrSubnet := b,
                     IPAM := some { ipam with SubnetPrefixSize := sz } } →
      cmdAdd { env with Unmarshal := u, LoadArgs := la } args = cmdAdd env args) := by
  have hrun := cmdAdd_explicit env args n ipam hload hipam hexplicit
  refine ⟨?_, ?_, ?_, ?_⟩
  · rw [hrun]
    simp only [Run.bind_eq, Run.andThen, Run.call, Env.newIPFinder, hfinder, Env.parseCIDR]
    split <;> simp [resolvedCIDR, List.findSome?]
  · intro e he
    rw [hrun]
    simp [Run.bind_eq, Run.andThen, Run.call, Env.newIPFinder, hfinder, Env.parseCIDR,
      asError, he]
  · intro ip ipnet hp
    constructor
    · intro r hr
      rw [hrun] at hr
      simp only [Run.out_bind_ok] at hr
      obtain ⟨_, _, ⟨ip', ipnet'⟩, hparse, m, _, hprint⟩ := hr
      simp only [Env.parseCIDR, Run.call, asError, hp, Except.ok.injEq, Prod.mk.injEq]
        at hparse
      obtain ⟨rfl, rfl⟩ := hparse
      simp only [Env.print, Run.call] at hprint
      split at hprint
      · simp only [Except.ok.injEq] at hprint
        rw [← hprint]
      · cases hprint
    · intro m hm hprint
      rw [hrun]
      simp only [Run.out_bind_ok]
      refine ⟨(), ?_, (ip, ipnet), ?_, m, hm, ?_⟩
      · simp [Env.newIPFinder, Run.call, hfinder]
      · simp [Env.parseCIDR, Run.call, asError, hp]
      · simp [Env.print, Run.call, hprint]
  · intro u la b sz hl
    rw [hrun, cmdAdd_explicit { env with Unmarshal := u, LoadArgs := la } args
      { n with BrSubnet := b, IPAM := some { ipam with SubnetPrefixSize := sz } }
      { ipam with SubnetPrefixSize := sz } hl rfl hexplicit]
    rfl

/-- C2 amended, on the sample host with the explicit address 10.0.0.7/24 and the bridge
subnet 10.42.0.0/16: the text parsed is `10.0.0.7/24`, the allocation is 10.0.0.7 with
the 24-bit mask of the explicit address (not the 16 bits of the bridge subnet), and the
run is the same on a bridge subnet from which no prefix can be derived at all. -/
theorem explicit_address_parsed_verbatim_witness :
    resolvedCIDR (cmdAdd (sampleHost (.ok sampleNet) "" [sampleBridgeAddr])
        (sampleArgs "IPAddress=10.0.0.7/24")).calls = some sampleExplicitIPAM.IPAddress ∧
    sampleExplicitIPAM.IPAddress = "10.0.0.7/24" ∧
    getSubnetSize sampleExplicitNet = .ok "/16" ∧
    (cmdAdd (sampleHost (.ok sampleNet) "" [sampleBridgeAddr])
        (sampleArgs "IPAddress=10.0.0.7/24")).out =
      .ok { IP4 := { IP := { IP := v4InV6 [10, 0, 0, 7], Mask := [255, 255, 255, 0] },
                     Gateway := [],
                     Routes := sampleExplicitIPAM.Routes ++ [sampleMetadataRoute] } } ∧
    cmdAdd { sampleHost (.ok sampleNet) "" [sampleBridgeAddr] with
               Unmarshal := fun _ => .ok sampleNetNoSlash, LoadArgs := sampleLoadArgs }
        (sampleArgs "IPAddress=10.0.0.7/24")
      = cmdAdd (sampleHost (.ok sampleNet) "" [sampleBridgeAddr])
          (sampleArgs "IPAddress=10.0.0.7/24") :=
  ⟨(explicit_address_parsed_verbatim (sampleHost (.ok sampleNet) "" [sampleBridgeAddr])
      (sampleArgs "IPAddress=10.0.0.7/24") sampleExplicitNet sampleExplicitIPAM
      (by decide) rfl (by decide) rfl).1,
   rfl,
   by decide,
   ((explicit_address_parsed_verbatim (sampleHost (.ok sampleNet) "" [sampleBridgeAddr])
      (sampleArgs "IPAddress=10.0.0.7/24") sampleExplicitNet sampleExplicitIPAM
      (by decide) rfl (by decide) rfl).2.2.1 (v4InV6 [10, 0, 0, 7])
      { IP := [10, 0, 0, 0], Mask := [255, 255, 255, 0] } (by decide)).2
      sampleMetadataRoute (by decide) rfl,
   (explicit_address_parsed_verbatim (sampleHost (.ok sampleNet) "" [sampleBridgeAddr])
      (sampleArgs "IPAddress=10.0.0.7/24") sampleExplicitNet sampleExplicitIPAM
      (by decide) rfl (by decide) rfl).2.2.2 (fun _ => .ok sampleNetNoSlash)
      sampleLoadArgs "10.42.0.0" "" (by decide)⟩

/-- C7. Whenever `cmdAdd` ends normally with result `r`, the configuration was loaded,
the metadata route `m` was derived, `r` was printed, and the route list of `r` is the
configured static routes followed by `m`: its length is one more than the number of
static routes, its entries below that number are the static routes in order, and its
last entry is `m`. -/
theorem routes_static_then_metadata (env : Env) (args : CmdArgs) (r : Result)
    (hok : (cmdAdd env args).out = .ok r) :
    ∃ n ipam m,
      LoadCNIConfig env args.StdinData args.Args = .ok n ∧ n.IPAM = some ipam ∧
      (getMetadataRoute env n).out = .ok m ∧
      r.IP4.Routes = ipam.Routes ++ [m] ∧
      r.IP4.Routes.length = ipam.Routes.length + 1 ∧
      (∀ i, i < ipam.Routes.length → r.IP4.Routes.get? i = ipam.Routes.get? i) ∧
      r.IP4.Routes.get? ipam.Routes.length = some m ∧
      r.IP4.Routes.getLast? = some m := by
  simp only [cmdAdd, Run.out_bind_ok] at hok
  obtain ⟨n, hn, ipam, hipam, _, _, s, _, ⟨ip, ipnet⟩, _, m, hm, hprint⟩ := hok
  simp only [Run.lift] at hn hipam
  have hi : n.IPAM = some ipam := by
    cases h : n.IPAM with
    | none => simp [derefIPAM, h] at hipam
    | some c =>
      simp only [derefIPAM, h, Except.ok.injEq] at hipam
      rw [hipam]
  have hr : r.IP4.Routes = ipam.Routes ++ [m] := by
    simp only [Env.print, Run.call] at hprint
    split at hprint
    · simp only [Except.ok.injEq] at hprint
      rw [← hprint]
    · cases hprint
  refine ⟨n, ipam, m, hn, hi, hm, hr, ?_, ?_, ?_, ?_⟩
  · simp [hr]
  · intro i hlt
    rw [hr]
    simp [List.getElem?_append_left hlt]
  · rw [hr]
    simp
  · rw [hr]
    simp

/-- C7, on the sample host with two static routes: the printed route list is the two
static routes followed by the metadata route. -/
theorem routes_static_then_metadata_witness :
    (cmdAdd (sampleHost (.ok sampleNetRouted) "10.0.0.5" [sampleBridgeAddr])
        (sampleArgs "")).out = .ok sampleResult ∧
    sampleResult.IP4.Routes = [sampleRoute1, sampleRoute2, sampleMetadataRoute] ∧
    ∃ n ipam m,
      LoadCNIConfig (sampleHost (.ok sampleNetRouted) "10.0.0.5" [sampleBridgeAddr])
        (sampleArgs "").StdinData (sampleArgs "").Args = .ok n ∧ n.IPAM = some ipam ∧
      (getMetadataRoute (sampleHost (.ok sampleNetRouted) "10.0.0.5" [sampleBridgeAddr])
        n).out = .ok m ∧
      sampleResult.IP4.Routes = ipam.Routes ++ [m] ∧
      sampleResult.IP4.Routes.length = ipam.Routes.length + 1 ∧
      (∀ i, i < ipam.Routes.length →
        sampleResult.IP4.Routes.get? i = ipam.Routes.get? i) ∧
      sampleResult.IP4.Routes.get? ipam.Routes.length = some m ∧
      sampleResult.IP4.Routes.getLast? = some m :=
  ⟨by decide, by decide,
    routes_static_then_metadata
      (sampleHost (.ok sampleNetRouted) "10.0.0.5" [sampleBridgeAddr]) (sampleArgs "")
      sampleResult (by decide)⟩

/-- C8. When the metadata service address `M` (the environment value, or the default
when that is empty) is valid, so that `M/32` parses to the network `dst`, and the bridge
is found and carries exactly one IPv4 address, printed as `B/P`, `getMetadataRoute`
succeeds with the route whose destination is `dst` and whose gateway is the address
parsed from `B`, the bridge address without its prefix. -/
theorem getMetadataRoute_single_address (env : Env) (n : Net) (M B P : String) (ip : IP)
    (dst : IPNet) (l : Link) (a : Addr)
    (hM : M = if env.Getenv "RANCHER_METADATA_ADDRESS" = "" then env.DefaultMetadataAddress
      else env.Getenv "RANCHER_METADATA_ADDRESS")
    (hparse : env.ParseCIDR (M ++ "/32") = .ok (ip, dst))
    (hlink : env.LinkByName n.BrName = .ok l)
    (haddrs : env.AddrList l = .ok [a])
    (hstring : env.IPNetString a.IPNet = B ++ "/" ++ P)
    (hB : '/' ∉ B.data) :
    (getMetadataRoute env n).out = .ok { Dst := dst, GW := env.ParseIP B } := by
  subst hM
  simp [getMetadataRoute, Run.bind_eq, Run.pure_eq, Run.andThen, Run.lift, Run.ret,
    Run.fail, Run.call, Env.parseCIDR, Env.linkByName, Env.addrList, asError, hparse,
    hlink, haddrs, hstring, SplitN_two B P hB, index]

/-- C8, on the sample host: bridge address 10.42.0.1/16 and metadata address
169.254.169.250 give the destination 169.254.169.250/32 and the gateway 10.42.0.1. -/
theorem getMetadataRoute_single_address_witness :
    (sampleHost (.ok sampleNet) "" [sampleBridgeAddr]).IPNetString sampleBridgeAddr.IPNet
      = "10.42.0.1" ++ "/" ++ "16" ∧
    (sampleHost (.ok sampleNet) "" [sampleBridgeAddr]).ParseIP "10.42.0.1"
      = v4InV6 [10, 42, 0, 1] ∧
    (getMetadataRoute (sampleHost (.ok sampleNet) "" [sampleBridgeAddr]) sampleNet).out
      = .ok { Dst := { IP := [169, 254, 169, 250], Mask := [255, 255, 255, 255] },
              GW := (sampleHost (.ok sampleNet) "" [sampleBridgeAddr]).ParseIP
                "10.42.0.1" } :=
  ⟨by decide, by decide,
    getMetadataRoute_single_address (sampleHost (.ok sampleNet) "" [sampleBridgeAddr])
      sampleNet "169.254.169.250" "10.42.0.1" "16" (v4InV6 [169, 254, 169, 250])
      { IP := [169, 254, 169, 250], Mask := [255, 255, 255, 255] }
      { Index := 3, Name := "br0" } sampleBridgeAddr (by decide) (by decide) (by decide)
      (by decide) (by decide) (by decide)⟩

/-- C9, refuted as stated.  The bridge `br0` has no IPv4 address, the request has no
explicit address and the metadata lookup answers nothing: `cmdAdd` reports
`No IP address found`, not the bridge-address-count error, and never lists the bridge
addresses. -/
theorem bridge_count_counterexample :
    (sampleHost (.ok sampleNet) "" []).AddrList { Index := 3, Name := "br0" } = .ok [] ∧
    (cmdAdd (sampleHost (.ok sampleNet) "" []) (sampleArgs "")).out
      = .error (.error "No IP address found") ∧
    (cmdAdd (sampleHost (.ok sampleNet) "" []) (sampleArgs "")).out
      ≠ .error (.error "error getting no IP from flat bridge br0") ∧
    (cmdAdd (sampleHost (.ok sampleNet) "" []) (sampleArgs "")).calls
      = [.NewIPFinderFromMetadata "", .GetIP "c1" ""] := by
  decide

/-- When the metadata address parses and the bridge is found with zero or more than
one address, `getMetadataRoute` parses, looks the bridge up, lists its addresses and
fails with the bridge-address-count error. -/
theorem getMetadataRoute_bridge_count (env : Env) (n : Net) (mparsed : IP × IPNet)
    (l : Link) (addrs : List Addr)
    (hmeta : env.ParseCIDR (metadataAddressOf env ++ "/32") = .ok mparsed)
    (hlink : env.LinkByName n.BrName = .ok l)
    (haddrs : env.AddrList l = .ok addrs)
    (hcount : addrs.length ≠ 1) :
    getMetadataRoute env n =
      ⟨[.ParseCIDR (metadataAddressOf env ++ "/32"), .LinkByName n.BrName, .AddrList l],
       .error (.error (bridgeCountError n.BrName addrs))⟩ := by
  unfold metadataAddressOf at hmeta
  match addrs, hcount with
  | [], _ =>
    simp [getMetadataRoute, Run.bind_eq, Run.pure_eq, Run.andThen, Run.lift, Run.ret,
      Run.fail, Run.call, Env.parseCIDR, Env.linkByName, Env.addrList, asError, hmeta,
      hlink, haddrs, metadataAddressOf, bridgeCountError]
  | [a], h => exact absurd rfl h
  | a :: b :: rest, _ =>
    simp [getMetadataRoute, Run.bind_eq, Run.pure_eq, Run.andThen, Run.lift, Run.ret,
      Run.fail, Run.call, Env.parseCIDR, Env.linkByName, Env.addrList, asError, hmeta,
      hlink, haddrs, metadataAddressOf, bridgeCountError]

/-- C9, amended.  Let the configuration load and the finder be built.
(1) When the container address resolves to a text `s` (the explicit address, or the
lookup answer followed by the derived prefix) that parses, the metadata address parses
and the bridge is found, but the bridge carries zero or more than one IPv4 address,
`cmdAdd` fails with the bridge-address-count error and prints nothing; the bridge is
looked up and listed only after `s` has been parsed.
(2) A request whose address does not resolve or parse reports that failure instead, and
the bridge is never consulted: an empty lookup answer gives `No IP address found`, a
failing prefix derivation gives its failure, and a text that does not parse gives the
parse error, with no call after the failing step. -/
theorem bridge_count_after_resolution (env : Env) (args : CmdArgs) (n : Net)
    (ipam : IPAMConfig)
    (hload : LoadCNIConfig env args.StdinData args.Args = .ok n)
    (hipam : n.IPAM = some ipam)
    (hfinder : env.NewIPFinderFromMetadata (env.Getenv "RANCHER_METADATA_ADDRESS") = none) :
    (∀ (s : String) (parsed mparsed : IP × IPNet) (l : Link) (addrs : List Addr),
      ResolvesTo env args n ipam s →
      env.ParseCIDR s = .ok parsed →
      env.ParseCIDR (metadataAddressOf env ++ "/32") = .ok mparsed →
      env.LinkByName n.BrName = .ok l →
      env.AddrList l = .ok addrs →
      addrs.length ≠ 1 →
      (cmdAdd env args).out = .error (.error (bridgeCountError n.BrName addrs)) ∧
      (cmdAdd env args).calls =
        callsBeforeParse env args ipam ++
          [.ParseCIDR s, .ParseCIDR (metadataAddressOf env ++ "/32"),
           .LinkByName n.BrName, .AddrList l] ∧
      ∀ c ∈ (cmdAdd env args).calls, c.isPrint = false) ∧
    (ipam.IPAddress = "" →
      env.GetIP args.ContainerID ipam.RancherContainerUUID = "" →
      (cmdAdd env args).out = .error (.error "No IP address found") ∧
      (cmdAdd env args).calls = callsBeforeParse env args ipam) ∧
    (ipam.IPAddress = "" →
      env.GetIP args.ContainerID ipam.RancherContainerUUID ≠ "" →
      ∀ f, getSubnetSize n = .error f →
        (cmdAdd env args).out = .error f ∧
        (cmdAdd env args).calls = callsBeforeParse env args ipam) ∧
    (∀ (s e : String),
      ResolvesTo env args n ipam s →
      env.ParseCIDR s = .error e →
      (cmdAdd env args).out = .error (.error e) ∧
      (cmdAdd env args).calls = callsBeforeParse env args ipam ++ [.ParseCIDR s]) := by
  refine ⟨?_, ?_, ?_, ?_⟩
  · intro s parsed mparsed l addrs hresolve hparse hmeta hlink haddrs hcount
    have hroute := getMetadataRoute_bridge_count env n mparsed l addrs hmeta hlink haddrs
      hcount
    have hcalls : (cmdAdd env args).out = .error (.error (bridgeCountError n.BrName addrs)) ∧
        (cmdAdd env args).calls =
          callsBeforeParse env args ipam ++
            [.ParseCIDR s, .ParseCIDR (metadataAddressOf env ++ "/32"),
             .LinkByName n.BrName, .AddrList l] := by
      rcases hresolve with ⟨hne, hs⟩ | ⟨he, hip, p, hp, hs⟩
      · subst hs
        simp [cmdAdd, Run.bind_eq, Run.pure_eq, Run.andThen, Run.lift, Run.ret, Run.fail,
          Run.call, Env.newIPFinder, Env.getIP, Env.parseCIDR, derefIPAM, asError, hload,
          hipam, hfinder, hne, hparse, hroute, callsBeforeParse]
      · subst hs
        simp [cmdAdd, Run.bind_eq, Run.pure_eq, Run.andThen, Run.lift, Run.ret, Run.fail,
          Run.call, Env.newIPFinder, Env.getIP, Env.parseCIDR, derefIPAM, asError, hload,
          hipam, hfinder, he, hip, hp, hparse, hroute, callsBeforeParse]
    refine ⟨hcalls.1, hcalls.2, ?_⟩
    intro c hc
    rw [hcalls.2] at hc
    simp only [callsBeforeParse, List.cons_append, List.mem_cons, List.mem_append] at hc
    rcases hc with h | h | h
    · subst h
      rfl
    · split at h
      · simp only [List.mem_singleton] at h
        subst h
        rfl
      · cases h
    · simp only [List.mem_cons, List.mem_singleton, List.not_mem_nil, or_false] at h
      rcases h with h | h | h | h <;> subst h <;> rfl
  · intro he hempty
    simp [cmdAdd, Run.bind_eq, Run.pure_eq, Run.andThen, Run.lift, Run.ret, Run.fail,
      Run.call, Env.newIPFinder, Env.getIP, derefIPAM, hload, hipam, hfinder, he, hempty,
      callsBeforeParse]
  · intro he hip f hf
    simp [cmdAdd, Run.bind_eq, Run.pure_eq, Run.andThen, Run.lift, Run.ret, Run.fail,
      Run.call, Env.newIPFinder, Env.getIP, derefIPAM, hload, hipam, hfinder, he, hip, hf,
      callsBeforeParse]
  · intro s e hresolve hparse
    rcases hresolve with ⟨hne, hs⟩ | ⟨he, hip, p, hp, hs⟩
    · subst hs
      simp [cmdAdd, Run.bind_eq, Run.pure_eq, Run.andThen, Run.lift, Run.ret, Run.fail,
        Run.call, Env.newIPFinder, Env.getIP, Env.parseCIDR, derefIPAM, asError, hload,
        hipam, hfinder, hne, hparse, callsBeforeParse]
    · subst hs
      simp [cmdAdd, Run.bind_eq, Run.pure_eq, Run.andThen, Run.lift, Run.ret, Run.fail,
        Run.call, Env.newIPFinder, Env.getIP, Env.parseCIDR, derefIPAM, asError, hload,
        hipam, hfinder, he, hip, hp, hparse, callsBeforeParse]

/-- C9 amended, on the sample host.  With the lookup answer 10.0.0.5, which resolves
to `10.0.0.5/16` and parses, an empty bridge and a bridge with two addresses both end in
the bridge-address-count error, after the address was parsed.  With the explicit address
`10.0.0.7`, which does not parse, the same empty bridge is never consulted and the parse
error is reported; with no lookup answer, `No IP address found` is reported; and on a
bridge subnet without a slash the panic of the prefix derivation is reported. -/
theorem bridge_count_after_resolution_witness :
    ((cmdAdd (sampleHost (.ok sampleNet) "10.0.0.5" []) (sampleArgs "")).out
        = .error (.error (bridgeCountError sampleNet.BrName [])) ∧
      (cmdAdd (sampleHost (.ok sampleNet) "10.0.0.5" []) (sampleArgs "")).calls
        = callsBeforeParse (sampleHost (.ok sampleNet) "10.0.0.5" []) (sampleArgs "")
            sampleIPAM ++
          [.ParseCIDR "10.0.0.5/16",
           .ParseCIDR (metadataAddressOf (sampleHost (.ok sampleNet) "10.0.0.5" []) ++ "/32"),
           .LinkByName sampleNet.BrName, .AddrList { Index := 3, Name := "br0" }] ∧
      ∀ c ∈ (cmdAdd (sampleHost (.ok sampleNet) "10.0.0.5" []) (sampleArgs "")).calls,
        c.isPrint = false) ∧
    bridgeCountError sampleNet.BrName [] = "error getting no IP from flat bridge br0" ∧
    ((cmdAdd (sampleHost (.ok sampleNet) "10.0.0.5" [sampleBridgeAddr, sampleBridgeAddr])
          (sampleArgs "")).out
        = .error (.error
            (bridgeCountError sampleNet.BrName [sampleBridgeAddr, sampleBridgeAddr])) ∧
      (cmdAdd (sampleHost (.ok sampleNet) "10.0.0.5" [sampleBridgeAddr, sampleBridgeAddr])
          (sampleArgs "")).calls
        = callsBeforeParse
            (sampleHost (.ok sampleNet) "10.0.0.5" [sampleBridgeAddr, sampleBridgeAddr])
            (sampleArgs "") sampleIPAM ++
          [.ParseCIDR "10.0.0.5/16",
           .ParseCIDR (metadataAddressOf
              (sampleHost (.ok sampleNet) "10.0.0.5" [sampleBridgeAddr, sampleBridgeAddr])
              ++ "/32"),
           .LinkByName sampleNet.BrName, .AddrList { Index := 3, Name := "br0" }] ∧
      ∀ c ∈ (cmdAdd
          (sampleHost (.ok sampleNet) "10.0.0.5" [sampleBridgeAddr, sampleBridgeAddr])
          (sampleArgs "")).calls, c.isPrint = false) ∧
    bridgeCountError sampleNet.BrName [sampleBridgeAddr, sampleBridgeAddr]
      = "error getting one more IP from flat bridge br0" ∧
    ((cmdAdd (sampleHost (.ok sampleNet) "" []) (sampleArgs "IPAddress=10.0.0.7")).out
        = .error (.error "invalid CIDR address: 10.0.0.7") ∧
      (cmdAdd (sampleHost (.ok sampleNet) "" []) (sampleArgs "IPAddress=10.0.0.7")).calls
        = callsBeforeParse (sampleHost (.ok sampleNet) "" [])
            (sampleArgs "IPAddress=10.0.0.7") sampleBareIPAM ++ [.ParseCIDR "10.0.0.7"]) ∧
    ((cmdAdd (sampleHost (.ok sampleNet) "" []) (sampleArgs "")).out
        = .error (.error "No IP address found") ∧
      (cmdAdd (sampleHost (.ok sampleNet) "" []) (sampleArgs "")).calls
        = callsBeforeParse (sampleHost (.ok sampleNet) "" []) (sampleArgs "") sampleIPAM) ∧
    ((cmdAdd (sampleHost (.ok sampleNetNoSlash) "10.0.0.5" []) (sampleArgs "")).out
        = .error (.panic "runtime error: index out of range") ∧
      (cmdAdd (sampleHost (.ok sampleNetNoSlash) "10.0.0.5" []) (sampleArgs "")).calls
        = callsBeforeParse (sampleHost (.ok sampleNetNoSlash) "10.0.0.5" [])
            (sampleArgs "") sampleIPAM) :=
  ⟨(bridge_count_after_resolution (sampleHost (.ok sampleNet) "10.0.0.5" [])
      (sampleArgs "") sampleNet sampleIPAM (by decide) rfl rfl).1 "10.0.0.5/16"
      (v4InV6 [10, 0, 0, 5], { IP := [10, 0, 0, 0], Mask := [255, 255, 0, 0] })
      (v4InV6 [169, 254, 169, 250],
        { IP := [169, 254, 169, 250], Mask := [255, 255, 255, 255] })
      { Index := 3, Name := "br0" } []
      (Or.inr ⟨by decide, by decide, "/16", by decide, by decide⟩)
      (by decide) (by decide) (by decide) (by decide) (by decide),
   by decide,
   (bridge_count_after_resolution
      (sampleHost (.ok sampleNet) "10.0.0.5" [sampleBridgeAddr, sampleBridgeAddr])
      (sampleArgs "") sampleNet sampleIPAM (by decide) rfl rfl).1 "10.0.0.5/16"
      (v4InV6 [10, 0, 0, 5], { IP := [10, 0, 0, 0], Mask := [255, 255, 0, 0] })
      (v4InV6 [169, 254, 169, 250],
        { IP := [169, 254, 169, 250], Mask := [255, 255, 255, 255] })
      { Index := 3, Name := "br0" } [sampleBridgeAddr, sampleBridgeAddr]
      (Or.inr ⟨by decide, by decide, "/16", by decide, by decide⟩)
      (by decide) (by decide) (by decide) (by decide) (by decide),
   by decide,
   (bridge_count_after_resolution (sampleHost (.ok sampleNet) "" [])
      (sampleArgs "IPAddress=10.0.0.7") sampleBareNet sampleBareIPAM (by decide) rfl
      rfl).2.2.2 "10.0.0.7" "invalid CIDR address: 10.0.0.7"
      (Or.inl ⟨by decide, rfl⟩) (by decide),
   (bridge_count_after_resolution (sampleHost (.ok sampleNet) "" []) (sampleArgs "")
      sampleNet sampleIPAM (by decide) rfl rfl).2.1 rfl rfl,
   (bridge_count_after_resolution (sampleHost (.ok sampleNetNoSlash) "10.0.0.5" [])
      (sampleArgs "") sampleNetNoSlash sampleIPAM (by decide) rfl rfl).2.2.1 rfl
      (by decide) (.panic "runtime error: index out of range") (by decide)⟩

/-- C10. `LoadCNIConfig` returns an error and no configuration when the payload does
not decode; it returns the missing-`ipam` error whenever the payload decodes without an
IPAM section, whatever the argument string is; and it returns a configuration exactly
when the payload decodes, the IPAM section is present and the argument string merges
into it (the configuration then is the decoded one with the merged section). -/
theorem LoadCNIConfig_outcomes (env : Env) (bytes : List Nat) :
    (∀ err, env.Unmarshal bytes = .error err → ∀ args,
      LoadCNIConfig env bytes args = .error (.error ("failed to load netconf: " ++ err))) ∧
    (∀ n, env.Unmarshal bytes = .ok n → n.IPAM = none → ∀ args,
      LoadCNIConfig env bytes args = .error (.error "IPAM config missing 'ipam' key")) ∧
    (∀ args conf, LoadCNIConfig env bytes args = .ok conf ↔
      ∃ n ipam merged, env.Unmarshal bytes = .ok n ∧ n.IPAM = some ipam ∧
        env.LoadArgs args ipam = .ok merged ∧ conf = { n with IPAM := some merged }) := by
  refine ⟨?_, ?_, ?_⟩
  · intro err h args
    simp [LoadCNIConfig, h]
  · intro n h hnone args
    simp [LoadCNIConfig, h, hnone]
  · intro args conf
    constructor
    · intro h
      unfold LoadCNIConfig at h
      split at h
      · cases h
      · rename_i n hu
        split at h
        · cases h
        · rename_i ipam hi
          split at h
          · cases h
          · rename_i merged hl
            cases h
            exact ⟨n, ipam, merged, hu, hi, hl, rfl⟩
    · rintro ⟨n, ipam, merged, hu, hi, hl, rfl⟩
      simp [LoadCNIConfig, hu, hi, hl]

/-- C10, on three sample payloads: one that does not decode, one that decodes without
an IPAM section, and one that decodes and merges. -/
theorem LoadCNIConfig_outcomes_witness :
    LoadCNIConfig (sampleHost (.error "unexpected end of JSON input") "" []) [] ""
      = .error (.error ("failed to load netconf: " ++ "unexpected end of JSON input")) ∧
    LoadCNIConfig (sampleHost (.ok { sampleNet with IPAM := none }) "" []) []
        "IPAddress=10.0.0.7/24"
      = .error (.error "IPAM config missing 'ipam' key") ∧
    ∃ n ipam merged,
      (sampleHost (.ok sampleNet) "" []).Unmarshal [] = .ok n ∧ n.IPAM = some ipam ∧
      (sampleHost (.ok sampleNet) "" []).LoadArgs "IPAddress=10.0.0.7/24" ipam
        = .ok merged ∧
      sampleExplicitNet = { n with IPAM := some merged } :=
  ⟨(LoadCNIConfig_outcomes (sampleHost (.error "unexpected end of JSON input") "" [])
      []).1 "unexpected end of JSON input" rfl "",
   (LoadCNIConfig_outcomes (sampleHost (.ok { sampleNet with IPAM := none }) "" [])
      []).2.1 { sampleNet with IPAM := none } rfl rfl "IPAddress=10.0.0.7/24",
   ((LoadCNIConfig_outcomes (sampleHost (.ok sampleNet) "" []) []).2.2
      "IPAddress=10.0.0.7/24" sampleExplicitNet).1 (by decide)⟩

/-- C6, at the failing input.  The bridge subnet `10.42.0.0` has no slash and there is
no prefix override: `getSubnetSize` does not return an error, it panics on the
out-of-range index, and so `cmdAdd` panics right after the metadata lookup. -/
theorem missing_slash_panics :
    getSubnetSize sampleNetNoSlash
      = .error (.panic "runtime error: index out of range") ∧
    (cmdAdd (sampleHost (.ok sampleNetNoSlash) "10.0.0.5" [sampleBridgeAddr])
        (sampleArgs "")).out
      = .error (.panic "runtime error: index out of range") ∧
    (cmdAdd (sampleHost (.ok sampleNetNoSlash) "10.0.0.5" [sampleBridgeAddr])
        (sampleArgs "")).calls
      = [.NewIPFinderFromMetadata "", .GetIP "c1" ""] := by
  decide

end FlatIpam
